import Mathlib

/-!
Shallow embedding of the CSV product-importer ingest pipeline
(`product/tasks.py` of the repository), together with theorems that settle
the specification claims about it.

Conventions of the embedding:

* Machine integers are `Nat` (all the counters in the source are non-negative
  Python ints that never overflow in practice).
* Python's `round` (banker's rounding, round half to even) applied to the
  exact rational `num / den` is modelled by `pyRound num den`.  In the source
  the argument is an IEEE double; for every quotient the program actually
  forms (`total/100` with `total` far below 2^52, `successful*100/total`)
  the double is close enough to the rational that the rounding agrees, the
  half-way cases being exactly representable.
* Fallible Python code is modelled with `Except PyError`; the distinct
  runtime errors the relevant paths can raise are the constructors of
  `PyError`.
* The external collaborators (store, channel layer, HTTP client) are
  parameters: the store is an acceptance predicate plus an association-list
  state, the channel layer a three-valued configuration, the HTTP client a
  response oracle indexed by attempt number.
* Side effects that the claims talk about (job-row writes, progress
  publications, webhook task enqueues) are collected in an `Event` trace.
-/

/-- Python's `round(num/den)` on the exact rational `num / den` (`den > 0`):
round half to even. -/
def pyRound (num den : Nat) : Nat :=
  let q := num / den
  let r := num % den
  if 2 * r < den then q
  else if den < 2 * r then q + 1
  else if q % 2 = 0 then q else q + 1

/-- `product/models.py` `Product`: the fields the pipeline writes
(`sku`, `name`, `description`, `is_active`); timestamps are omitted. -/
structure Product where
  sku : String
  name : String
  description : String
  is_active : Bool
deriving DecidableEq, Repr

/-- `product/models.py` `UploadHistory`: the fields the ingest task reads and
writes.  Timestamps (`started_at`, `completed_at`) are external wall-clock
values and are omitted. -/
structure UploadHistory where
  id : Nat
  file_name : String
  status : String
  total_records : Nat
  processed_records : Nat
  successful_records : Nat
  failed_records : Nat
  error_message : Option String
deriving DecidableEq, Repr

/-- One raw CSV row as produced by `csv.DictReader`: each field is present
(`some`) or absent from the header (`none`). -/
structure Row where
  sku : Option String
  name : Option String
  desc : Option String
  description : Option String
deriving DecidableEq, Repr

/-- Python `str.upper()` (the data is ASCII; modelled per character so that
it computes by structural recursion, unlike `String.toUpper`). -/
def pyUpper (s : String) : String := String.mk (s.data.map Char.toUpper)

/-- Python `str.strip()`: drop leading and trailing whitespace. -/
def pyStrip (s : String) : String :=
  String.mk (((s.data.dropWhile Char.isWhitespace).reverse.dropWhile
    Char.isWhitespace).reverse)

/-- `str(row.get('sku', '')).strip().upper()` -/
def rowSku (r : Row) : String := pyUpper (pyStrip (r.sku.getD ""))

/-- `str(row.get('name', '')).strip()` -/
def rowName (r : Row) : String := pyStrip (r.name.getD "")

/-- The validation filter used identically by both passes:
`if not sku or not name or sku == 'nan' or name == 'nan': continue` -/
def rowValid (r : Row) : Bool :=
  !(rowSku r == "" || rowName r == "" || rowSku r == "nan" || rowName r == "nan")

/-- The counting pass: number of rows that survive validation. -/
def countValid (rows : List Row) : Nat := (rows.filter rowValid).length

/-- `str(row.get('desc', '') or row.get('description', '')).strip()`,
then `description if description != 'nan' else ''`:
Python `or` takes the second operand when the first is the empty string. -/
def rowDescription (r : Row) : String :=
  let d0 := if r.desc.getD "" ≠ "" then r.desc.getD "" else r.description.getD ""
  if pyStrip d0 = "nan" then "" else pyStrip d0

/-- The `Product(...)` constructed for a validated row in the processing
pass (`is_active=True`). -/
def rowToProduct (r : Row) : Product :=
  { sku := rowSku r, name := rowName r, description := rowDescription r, is_active := true }

/-- `get_batch_size` from `product/tasks.py`:
`if total_count < 100: return total_count`,
`elif total_count > 100 and total_count < 1000: return 200`,
else `round(total_count / 100)`. -/
def get_batch_size (total_count : Nat) : Nat :=
  if total_count < 100 then total_count
  else if total_count > 100 && total_count < 1000 then 200
  else pyRound total_count 100

/-- Python dict assignment `unique_batch[product.sku] = product`: if the key
is already bound, replace the value in place; otherwise append the binding. -/
def dedupInsert : List Product → Product → List Product
  | [], p => [p]
  | q :: rest, p => if q.sku = p.sku then p :: rest else q :: dedupInsert rest p

/-- The in-batch deduplication of `process_csv_streaming`:
`unique_batch = {}; for product in batch: unique_batch[product.sku] = product;
deduplicated_batch = list(unique_batch.values())` — first-occurrence order,
last-occurrence value. -/
def dedupBatch (batch : List Product) : List Product := batch.foldl dedupInsert []

/-- The distinct runtime errors of the embedded paths. -/
inductive PyError where
  /-- `ZeroDivisionError` from `round((successful/total)*100)` with `total = 0`. -/
  | zeroDivision
  /-- An error raised by the channel layer's `group_send`. -/
  | publishError
  /-- `UnboundLocalError` from `process_batch` returning unassigned locals. -/
  | unboundLocal
  /-- `ValueError(f"Unsupported file type: ...")`. -/
  | valueError (msg : String)
deriving DecidableEq, Repr

/-- The persistent store keyed by SKU, insertion ordered
(the relational table with its unique `sku` index). -/
abbrev Store := List (String × Product)

/-- One row of the `bulk_create(update_conflicts=True, unique_fields=['sku'],
update_fields=['name','description','is_active'])` upsert: matching key gets
its fields overwritten, absent key is inserted. -/
def storeUpsert1 : Store → Product → Store
  | [], p => [(p.sku, p)]
  | (k, q) :: rest, p => if k = p.sku then (k, p) :: rest else (k, q) :: storeUpsert1 rest p

/-- Applying a whole batch to the store, in batch order. -/
def storeUpsertBatch (s : Store) (b : List Product) : Store := b.foldl storeUpsert1 s

/-- `process_batch` from `product/tasks.py`, parameterised by the store's
acceptance behaviour (`accepts batch = true` means the atomic transaction
commits, `false` means `bulk_create` raised and the `except` branch ran).
On an empty batch the `if products_to_upsert:` guard skips both branches and
the final `return` raises `UnboundLocalError` (`successful`/`failed` never
assigned). Returns the new store and the `successful`/`failed` counts. -/
def process_batch (accepts : List Product → Bool) (s : Store) (batch : List Product) :
    Except PyError (Store × Nat × Nat) :=
  if batch.isEmpty then
    Except.error PyError.unboundLocal
  else if accepts batch then
    Except.ok (storeUpsertBatch s batch, batch.length, 0)
  else
    Except.ok (s, 0, batch.length)

example : get_batch_size 50 = 50 := by decide
example : get_batch_size 500 = 200 := by decide
example : get_batch_size 10000 = 100 := by decide
example : get_batch_size 100 = 1 := by decide
example : get_batch_size 0 = 0 := by decide
example : get_batch_size 1050 = 10 := by decide
example : get_batch_size 1150 = 12 := by decide

/-- Behaviour of the progress transport: the channel layer is absent
(`get_channel_layer()` returned a falsy value), present and working, or
present with a `group_send` that raises. -/
inductive ChannelCfg where
  | absent
  | works
  | raises
deriving DecidableEq, Repr

/-- The event dict passed to `group_send` by `send_progress_update`. -/
structure ProgressPayload where
  upload_id : Nat
  status : String
  total_records : Nat
  successful_records : Nat
  progress_percentage : Nat
  message : String
deriving DecidableEq, Repr

/-- The payload dicts handed to `trigger_webhook.delay` (timestamp fields
omitted; fields not present in a given call site are `none`). -/
structure TerminalPayload where
  upload_id : Nat
  file_name : String
  total_records : Option Nat
  successful_records : Option Nat
  failed_records : Option Nat
  error_message : Option String
deriving DecidableEq, Repr

/-- Observable side effects of one run, in order. -/
inductive Event where
  /-- `upload_record.save()` with the row state being written. -/
  | jobWrite (row : UploadHistory)
  /-- `channel_layer.group_send` on `upload_progress_<id>` with this payload. -/
  | progress (p : ProgressPayload)
  /-- `trigger_webhook.delay(event_type, payload)`. -/
  | webhook (event_type : String) (payload : TerminalPayload)
deriving DecidableEq, Repr

/-- `send_progress_update` from `product/tasks.py`.  When a channel layer is
present the payload dict is built first — `round((successful_records /
total_records) * 100)` raises `ZeroDivisionError` when `total_records = 0` —
and then `group_send` is invoked, which may itself raise.  When the layer is
absent nothing happens.  Returns the published payload, if any. -/
def send_progress_update (cfg : ChannelCfg) (upload_id : Nat) (status : String)
    (total_records successful_records : Nat) : Except PyError (Option ProgressPayload) :=
  match cfg with
  | ChannelCfg.absent => Except.ok none
  | _ =>
    if total_records = 0 then
      Except.error PyError.zeroDivision
    else
      let payload : ProgressPayload :=
        { upload_id := upload_id
          status := status
          total_records := total_records
          successful_records := successful_records
          progress_percentage := pyRound (successful_records * 100) total_records
          message := "Processing " ++ toString successful_records ++ "/"
            ++ toString total_records ++ " records" }
      match cfg with
      | ChannelCfg.raises => Except.error PyError.publishError
      | _ => Except.ok (some payload)

/-- Mutable state of the processing pass of `process_csv_streaming`. -/
structure StreamState where
  batch : List Product
  total_processed : Nat
  total_successful : Nat
  total_failed : Nat
  batch_num : Nat
  store : Store
  events : List Event
deriving DecidableEq, Repr

/-- The shared batch-processing block of `process_csv_streaming` (run both when the
batch fills and at the final flush): deduplicate, count the removed
duplicates, run `process_batch`, fold the result into the running counters
(duplicates counted as failed), publish a progress event with the given
status, and clear the batch. -/
def flushBatch (accepts : List Product → Bool) (cfg : ChannelCfg) (uploadId : Nat)
    (progressStatus : String) (total_count : Nat) (st : StreamState) :
    StreamState × Option PyError :=
  let deduplicated := dedupBatch st.batch
  let duplicates_removed := st.batch.length - deduplicated.length
  match process_batch accepts st.store deduplicated with
  | Except.error e => (st, some e)
  | Except.ok (store', successful, failed) =>
    let st' : StreamState :=
      { batch := []
        total_processed := st.total_processed + successful + failed + duplicates_removed
        total_successful := st.total_successful + successful
        total_failed := st.total_failed + failed + duplicates_removed
        batch_num := st.batch_num + 1
        store := store'
        events := st.events }
    match send_progress_update cfg uploadId progressStatus total_count
        st'.total_successful with
    | Except.error e => (st', some e)
    | Except.ok none => (st', none)
    | Except.ok (some p) => ({ st' with events := st'.events ++ [Event.progress p] }, none)

/-- The row loop of the processing pass: skip invalid rows, append the
constructed `Product` to the batch, and flush whenever the batch reaches
`batch_size`. -/
def streamLoop (accepts : List Product → Bool) (cfg : ChannelCfg) (uploadId : Nat)
    (status : String) (batch_size total_count : Nat) :
    List Row → StreamState → StreamState × Option PyError
  | [], st => (st, none)
  | r :: rs, st =>
    if rowValid r then
      let st' := { st with batch := st.batch ++ [rowToProduct r] }
      if st'.batch.length ≥ batch_size then
        match flushBatch accepts cfg uploadId status total_count st' with
        | (st'', some e) => (st'', some e)
        | (st'', none) => streamLoop accepts cfg uploadId status batch_size total_count rs st''
      else
        streamLoop accepts cfg uploadId status batch_size total_count rs st'
    else
      streamLoop accepts cfg uploadId status batch_size total_count rs st

/-- The `stats` dict returned by `process_csv_streaming`. -/
structure Stats where
  total : Nat
  successful : Nat
  failed : Nat
deriving DecidableEq, Repr

/-- Outcome of `process_csv_streaming`: either the returned `stats` dict
(plus the written job row, store and trace), or a raised error — with the
store mutations and events that really happened before the raise. -/
inductive StreamResult where
  | ok (stats : Stats) (record : UploadHistory) (store : Store) (events : List Event)
  | error (e : PyError) (store : Store) (events : List Event)
deriving DecidableEq, Repr

/-- `process_csv_streaming` from `product/tasks.py`: one counting pass, batch
size derivation, the batched processing pass, the final flush of a non-empty
trailing batch (progress status `"completed"`), and the single save of
`processed_records`/`successful_records`/`failed_records` at the end. -/
def process_csv_streaming (accepts : List Product → Bool) (cfg : ChannelCfg)
    (rows : List Row) (upload_record : UploadHistory) (store : Store) : StreamResult :=
  let total_count := countValid rows
  let batch_size := get_batch_size total_count
  let st0 : StreamState :=
    { batch := [], total_processed := 0, total_successful := 0, total_failed := 0
      batch_num := 0, store := store, events := [] }
  match streamLoop accepts cfg upload_record.id upload_record.status batch_size total_count
      rows st0 with
  | (st1, some e) => StreamResult.error e st1.store st1.events
  | (st1, none) =>
    match (if st1.batch.isEmpty then (st1, none)
           else flushBatch accepts cfg upload_record.id "completed" total_count st1) with
    | (st2, some e) => StreamResult.error e st2.store st2.events
    | (st2, none) =>
      let rec' := { upload_record with
        processed_records := st2.total_processed
        successful_records := st2.total_successful
        failed_records := st2.total_failed }
      StreamResult.ok
        { total := st2.total_processed, successful := st2.total_successful,
          failed := st2.total_failed }
        rec' st2.store (st2.events ++ [Event.jobWrite rec'])

/-- `str(e)` for the modelled runtime errors. -/
def pyErrMsg : PyError → String
  | PyError.zeroDivision => "division by zero"
  | PyError.publishError => "channel layer group_send failed"
  | PyError.unboundLocal => "local variable referenced before assignment"
  | PyError.valueError msg => msg

/-- The synthesized error message of the failed-records branch of
`process_csv_file`. -/
def failureMessage (failed total : Nat) : String :=
  toString failed ++ " out of " ++ toString total
    ++ " records failed to process. This may be due to duplicate SKUs in the CSV file."

/-- The dict returned by the `process_csv_file` task. -/
inductive TaskResult where
  | success (total_records successful_records failed_records : Nat)
  | error (message : String)
deriving DecidableEq, Repr

/-- `process_csv_file` from `product/tasks.py`, with the S3 plumbing replaced
by the list of parsed rows.  `record?` is the result of the initial
`UploadHistory.objects.get`; `none` models `DoesNotExist`.  On the success
path: set the totals from the stats, choose terminal status (`failed` iff any
failed records), persist, enqueue the matching terminal webhook.  On an
exception: re-read the row (its persisted state is the `processing` row saved
at start), mark it failed with the error text, persist, enqueue the failure
webhook whose payload has no count fields. -/
def process_csv_file (accepts : List Product → Bool) (cfg : ChannelCfg)
    (record? : Option UploadHistory) (rows : List Row) (file_extension : String)
    (store : Store) : TaskResult × Option UploadHistory × Store × List Event :=
  match record? with
  | none => (TaskResult.error "Upload record not found", none, store, [])
  | some rec0 =>
    let rec1 := { rec0 with status := "processing" }
    let inner :=
      if file_extension = ".csv" then
        process_csv_streaming accepts cfg rows rec1 store
      else
        StreamResult.error (PyError.valueError ("Unsupported file type: " ++ file_extension))
          store []
    match inner with
    | StreamResult.ok stats rec2 store2 evs =>
      let rec3 := { rec2 with
        total_records := stats.total
        successful_records := stats.successful
        failed_records := stats.failed }
      if stats.failed > 0 then
        let rec4 := { rec3 with
          status := "failed"
          error_message := some (failureMessage stats.failed stats.total) }
        let payload : TerminalPayload :=
          { upload_id := rec4.id, file_name := rec4.file_name
            total_records := some stats.total
            successful_records := some stats.successful
            failed_records := some stats.failed
            error_message := rec4.error_message }
        (TaskResult.success stats.total stats.successful stats.failed, some rec4, store2,
         Event.jobWrite rec1 :: evs
           ++ [Event.jobWrite rec4, Event.webhook "bulk_upload_failed" payload])
      else
        let rec4 := { rec3 with status := "completed" }
        let payload : TerminalPayload :=
          { upload_id := rec4.id, file_name := rec4.file_name
            total_records := some stats.total
            successful_records := some stats.successful
            failed_records := some stats.failed
            error_message := none }
        (TaskResult.success stats.total stats.successful stats.failed, some rec4, store2,
         Event.jobWrite rec1 :: evs
           ++ [Event.jobWrite rec4, Event.webhook "bulk_upload_complete" payload])
    | StreamResult.error e store2 evs =>
      let recE := { rec1 with status := "failed", error_message := some (pyErrMsg e) }
      let payload : TerminalPayload :=
        { upload_id := recE.id, file_name := recE.file_name
          total_records := none, successful_records := none, failed_records := none
          error_message := some (pyErrMsg e) }
      (TaskResult.error (pyErrMsg e), some recE, store2,
       Event.jobWrite rec1 :: evs
         ++ [Event.jobWrite recE, Event.webhook "bulk_upload_failed" payload])

/-- Outcome of one `requests.post` call: a response with a status code, a
`requests.exceptions.Timeout`, or another `requests.exceptions.RequestException`. -/
inductive HttpOutcome where
  | response (code : Nat)
  | timeout
  | transportError
deriving DecidableEq, Repr

/-- `200 <= response.status_code < 300` — the only outcome that stops the
retry loop. -/
def outcomeSuccess : HttpOutcome → Bool
  | HttpOutcome.response code => 200 ≤ code && code < 300
  | _ => false

/-- What one endpoint's attempt loop did: number of `requests.post` calls,
the `time.sleep` durations between them, and whether a 2xx was reached. -/
structure AttemptResult where
  attempts : Nat
  delays : List Nat
  delivered : Bool
deriving DecidableEq, Repr

/-- The attempt loop of `trigger_webhook` for one endpoint, starting at the
zero-based `attempt` index:
`for attempt in range(webhook.retry_count + 1)` — on a 2xx response `break`
(delivered); otherwise, or on a timeout or transport error, if
`attempt < webhook.retry_count` then `time.sleep(2 ** attempt)` and continue,
else count the endpoint as failed.  `respond n` is the outcome of the
`requests.post` call at attempt index `n`.  (The per-attempt telemetry writes
to the endpoint row are not modelled; no claim mentions them.) -/
def deliverFrom (respond : Nat → HttpOutcome) (retry_count attempt : Nat) : AttemptResult :=
  if outcomeSuccess (respond attempt) then
    { attempts := 1, delays := [], delivered := true }
  else if h : attempt < retry_count then
    let r := deliverFrom respond retry_count (attempt + 1)
    { attempts := r.attempts + 1, delays := 2 ^ attempt :: r.delays, delivered := r.delivered }
  else
    { attempts := 1, delays := [], delivered := false }
termination_by retry_count - attempt

/-- `product/models.py` `Webhook`: the fields the dispatcher reads
(telemetry fields omitted). -/
structure WebhookEP where
  id : Nat
  url : String
  event_type : String
  is_active : Bool
  retry_count : Nat
deriving DecidableEq, Repr

/-- The whole attempt loop for one endpoint (`range(retry_count + 1)` starts
at attempt index 0). -/
def webhookAttempts (respond : Nat → Nat → HttpOutcome) (ep : WebhookEP) : AttemptResult :=
  deliverFrom (respond ep.id) ep.retry_count 0

/-- The aggregate dict returned by `trigger_webhook`. -/
structure DispatchResult where
  triggered : Nat
  failed : Nat
  total : Nat
deriving DecidableEq, Repr

/-- The endpoints `Webhook.objects.filter(event_type=event_type, is_active=True)`
selects. -/
def matchingEndpoints (endpoints : List WebhookEP) (event_type : String) : List WebhookEP :=
  endpoints.filter (fun ep => ep.event_type == event_type && ep.is_active)

/-- `trigger_webhook` from `product/tasks.py` over a table of endpoints:
run the attempt loop for each matching endpoint, counting delivered endpoints
in `triggered` and exhausted ones in `failed`.  `respond ep.id n` is the
outcome of endpoint `ep`'s `requests.post` at attempt `n`.  (When no endpoint
matches the task returns early with `triggered = 0`, which coincides with
this definition on the empty selection.) -/
def trigger_webhook (endpoints : List WebhookEP) (event_type : String)
    (respond : Nat → Nat → HttpOutcome) : DispatchResult :=
  let matching := matchingEndpoints endpoints event_type
  let results := matching.map (webhookAttempts respond)
  { triggered := (results.filter (fun r => r.delivered)).length
    failed := (results.filter (fun r => !r.delivered)).length
    total := matching.length }

/-! ### Helper lemmas about the in-batch deduplication -/

/-- The natural keys of a list of records, in order. -/
def skus (l : List Product) : List String := l.map Product.sku

theorem skus_nil : skus [] = [] := rfl

theorem skus_cons (p : Product) (l : List Product) : skus (p :: l) = p.sku :: skus l := rfl

theorem skus_append (l l' : List Product) : skus (l ++ l') = skus l ++ skus l' := by
  simp [skus]

theorem length_skus (l : List Product) : (skus l).length = l.length := by
  simp [skus]

theorem dedupInsert_ne_nil (acc : List Product) (p : Product) : dedupInsert acc p ≠ [] := by
  cases acc with
  | nil => simp [dedupInsert]
  | cons q rest =>
    simp only [dedupInsert]
    split <;> simp

theorem foldl_dedupInsert_ne_nil :
    ∀ (l : List Product) (acc : List Product), acc ≠ [] ∨ l ≠ [] →
      l.foldl dedupInsert acc ≠ []
  | [], acc, h => by
    rcases h with h | h
    · simpa using h
    · exact absurd rfl h
  | p :: ls, acc, _ => by
    simp only [List.foldl_cons]
    exact foldl_dedupInsert_ne_nil ls (dedupInsert acc p) (Or.inl (dedupInsert_ne_nil acc p))

theorem dedupBatch_ne_nil (b : List Product) (h : b ≠ []) : dedupBatch b ≠ [] :=
  foldl_dedupInsert_ne_nil b [] (Or.inr h)

theorem skus_dedupInsert (acc : List Product) (p : Product) :
    skus (dedupInsert acc p) =
      if p.sku ∈ skus acc then skus acc else skus acc ++ [p.sku] := by
  induction acc with
  | nil => simp [dedupInsert, skus]
  | cons q rest ih =>
    simp only [dedupInsert]
    by_cases hq : q.sku = p.sku
    · simp [hq, skus_cons]
    · have : p.sku ∈ skus (q :: rest) ↔ p.sku ∈ skus rest := by
        simp [skus_cons]
        intro h
        exact absurd h.symm hq
      by_cases hm : p.sku ∈ skus rest
      · simp [hq, skus_cons, ih, hm, this]
      · have hqp : ¬p.sku = q.sku := fun h => hq h.symm
        simp [hq, skus_cons, ih, hm, this, hqp]

theorem mem_skus_dedupInsert (acc : List Product) (p : Product) (x : String) :
    x ∈ skus (dedupInsert acc p) ↔ x ∈ skus acc ∨ x = p.sku := by
  rw [skus_dedupInsert]
  split <;> rename_i hm
  · constructor
    · exact fun h => Or.inl h
    · rintro (h | h)
      · exact h
      · exact h ▸ hm
  · simp

theorem nodup_skus_dedupInsert (acc : List Product) (p : Product)
    (h : (skus acc).Nodup) : (skus (dedupInsert acc p)).Nodup := by
  rw [skus_dedupInsert]
  split <;> rename_i hm
  · exact h
  · simp [List.nodup_append, h, hm]

theorem nodup_skus_foldl :
    ∀ (l : List Product) (acc : List Product), (skus acc).Nodup →
      (skus (l.foldl dedupInsert acc)).Nodup
  | [], _, h => h
  | p :: ls, acc, h => by
    simp only [List.foldl_cons]
    exact nodup_skus_foldl ls (dedupInsert acc p) (nodup_skus_dedupInsert acc p h)

theorem nodup_skus_dedupBatch (b : List Product) : (skus (dedupBatch b)).Nodup :=
  nodup_skus_foldl b [] (by simp [skus])

theorem mem_skus_foldl :
    ∀ (l : List Product) (acc : List Product) (x : String),
      x ∈ skus (l.foldl dedupInsert acc) ↔ x ∈ skus acc ∨ x ∈ skus l
  | [], acc, x => by simp [skus]
  | p :: ls, acc, x => by
    simp only [List.foldl_cons]
    rw [mem_skus_foldl ls (dedupInsert acc p) x, mem_skus_dedupInsert]
    simp [skus_cons]
    tauto

theorem mem_skus_dedupBatch (b : List Product) (x : String) :
    x ∈ skus (dedupBatch b) ↔ x ∈ skus b := by
  rw [dedupBatch, mem_skus_foldl]
  simp [skus]

theorem filter_sku_eq_nil (acc : List Product) (K : String) (h : K ∉ skus acc) :
    acc.filter (fun q => q.sku == K) = [] := by
  induction acc with
  | nil => rfl
  | cons q rest ih =>
    have h1 : ¬q.sku = K := by
      intro hq
      exact h (by simp [skus_cons, hq])
    have h2 : K ∉ skus rest := fun hm => h (by simp [skus_cons, hm])
    simp [List.filter_cons, h1, ih h2]

theorem filter_dedupInsert (acc : List Product) (p : Product) (K : String)
    (h : (skus acc).Nodup) :
    (dedupInsert acc p).filter (fun q => q.sku == K) =
      if p.sku = K then [p] else acc.filter (fun q => q.sku == K) := by
  induction acc with
  | nil =>
    simp only [dedupInsert]
    by_cases hp : p.sku = K <;> simp [List.filter_cons, hp]
  | cons q rest ih =>
    have hqrest : q.sku ∉ skus rest := by
      have := h
      simp [skus_cons, List.nodup_cons] at this
      exact this.1
    have hrest : (skus rest).Nodup := by
      have := h
      simp [skus_cons, List.nodup_cons] at this
      exact this.2
    simp only [dedupInsert]
    by_cases hq : q.sku = p.sku
    · rw [if_pos hq]
      by_cases hp : p.sku = K
      · have : K ∉ skus rest := by
          rw [← hp, ← hq]
          exact hqrest
        simp [hp, List.filter_cons, filter_sku_eq_nil rest K this]
      · have hqK : ¬q.sku = K := by rw [hq]; exact hp
        simp [hp, List.filter_cons, hqK]
    · rw [if_neg hq]
      by_cases hqK : q.sku = K
      · have hp : ¬p.sku = K := fun hpK => hq (hqK.trans hpK.symm)
        rw [List.filter_cons, List.filter_cons]
        simp only [hqK, beq_self_eq_true, if_true, if_neg hp, ih hrest, if_neg hp]
      · have hb : (q.sku == K) = false := by
          simp [hqK]
        rw [List.filter_cons, List.filter_cons]
        simp [hb, ih hrest]

theorem filter_single_of_nodup (acc : List Product) (K : String)
    (h : (skus acc).Nodup) :
    acc.filter (fun q => q.sku == K) =
      ((acc.filter (fun q => q.sku == K)).getLast?).toList := by
  induction acc with
  | nil => rfl
  | cons q rest ih =>
    have hqrest : q.sku ∉ skus rest := by
      have := h
      simp [skus_cons, List.nodup_cons] at this
      exact this.1
    have hrest : (skus rest).Nodup := by
      have := h
      simp [skus_cons, List.nodup_cons] at this
      exact this.2
    by_cases hqK : q.sku = K
    · have hK : K ∉ skus rest := hqK ▸ hqrest
      rw [List.filter_cons]
      simp only [hqK, beq_self_eq_true, if_true, filter_sku_eq_nil rest K hK]
      rfl
    · have hb : ¬((q.sku == K) = true) := by simp [hqK]
      rw [List.filter_cons, if_neg hb]
      exact ih hrest

theorem filter_foldl_dedupInsert :
    ∀ (l acc : List Product) (K : String), (skus acc).Nodup →
      (l.foldl dedupInsert acc).filter (fun q => q.sku == K) =
        (((acc ++ l).filter (fun q => q.sku == K)).getLast?).toList
  | [], acc, K, h => by
    simpa using filter_single_of_nodup acc K h
  | p :: ls, acc, K, h => by
    simp only [List.foldl_cons]
    rw [filter_foldl_dedupInsert ls (dedupInsert acc p) K (nodup_skus_dedupInsert acc p h)]
    rw [List.filter_append, List.filter_append, filter_dedupInsert acc p K h]
    by_cases hp : p.sku = K
    · rw [List.filter_cons]
      simp only [hp, if_pos, beq_self_eq_true, if_true]
      rw [List.getLast?_append_cons]
      rfl
    · rw [List.filter_cons]
      simp [hp]

/-- Deduplication keeps, for every natural key, exactly the last record of
the batch carrying that key. -/
theorem dedupBatch_filter (b : List Product) (K : String) :
    (dedupBatch b).filter (fun q => q.sku == K) =
      ((b.filter (fun q => q.sku == K)).getLast?).toList := by
  have := filter_foldl_dedupInsert b [] K (by simp [skus])
  simpa [dedupBatch] using this

/-- The records dropped by deduplication are exactly the per-key surpluses:
`batch.length - deduplicated.length` equals the sum over the distinct keys of
`count(K) - 1` (keys occurring once contribute 0). -/
theorem dedupBatch_length_sum (b : List Product) :
    b.length - (dedupBatch b).length =
      ((skus (dedupBatch b)).map (fun K => (skus b).count K - 1)).sum := by
  classical
  have hnd : (skus (dedupBatch b)).Nodup := nodup_skus_dedupBatch b
  have hT : (skus (dedupBatch b)).toFinset = (skus b).toFinset := by
    ext x
    simp [List.mem_toFinset, mem_skus_dedupBatch b x]
  have h1 : ((skus (dedupBatch b)).map (fun K => (skus b).count K - 1)).sum
      = ∑ K in (skus (dedupBatch b)).toFinset, ((skus b).count K - 1) :=
    (List.sum_toFinset _ hnd).symm
  have hc : ∀ K ∈ (skus b).toFinset, 1 ≤ (skus b).count K := by
    intro K hK
    exact List.count_pos_iff.mpr (List.mem_toFinset.mp hK)
  have h3 : ∑ K in (skus b).toFinset, (skus b).count K = (skus b).length :=
    List.sum_toFinset_count_eq_length _
  have h4 : ∑ K in (skus b).toFinset, (skus b).count K
      = ∑ K in (skus b).toFinset, (((skus b).count K - 1) + 1) :=
    Finset.sum_congr rfl (fun K hK => (Nat.sub_add_cancel (hc K hK)).symm)
  have h5 : ∑ K in (skus b).toFinset, (((skus b).count K - 1) + 1)
      = (∑ K in (skus b).toFinset, ((skus b).count K - 1)) + (skus b).toFinset.card := by
    rw [Finset.sum_add_distrib]
    simp
  have hcard : (skus b).toFinset.card = (dedupBatch b).length := by
    rw [← hT, List.toFinset_card_of_nodup hnd, length_skus]
  have hlen : (skus b).length = b.length := length_skus b
  rw [h1, hT]
  omega

/-- Recognisers and counters for the event trace. -/
def isJobWrite : Event → Bool
  | Event.jobWrite _ => true
  | _ => false

def isProgress : Event → Bool
  | Event.progress _ => true
  | _ => false

def countJobWrites (evs : List Event) : Nat := (evs.filter isJobWrite).length

def countProgress (evs : List Event) : Nat := (evs.filter isProgress).length

/-- On a non-empty batch, `process_batch` never raises: the transaction
either commits wholesale or fails wholesale. -/
theorem process_batch_nonempty (accepts : List Product → Bool) (s : Store)
    (batch : List Product) (h : batch ≠ []) :
    process_batch accepts s batch =
      if accepts batch then Except.ok (storeUpsertBatch s batch, batch.length, 0)
      else Except.ok (s, 0, batch.length) := by
  have hne : ¬(batch.isEmpty = true) := by simpa using h
  unfold process_batch
  rw [if_neg hne]

/-- The concrete four-row source of the end-to-end scenario. -/
def sampleRow (s n : String) : Row :=
  { sku := some s, name := some n, desc := none, description := none }

def c1Rows : List Row :=
  [sampleRow "a1" "Widget", sampleRow "A1" "Widget v2",
   sampleRow "" "Bad", sampleRow "b2" "Gadget"]

def c1Upload : UploadHistory :=
  { id := 7, file_name := "products.csv", status := "pending", total_records := 0,
    processed_records := 0, successful_records := 0, failed_records := 0,
    error_message := none }

/-- A store collaborator that accepts every batch. -/
def acceptAll : List Product → Bool := fun _ => true

def c1Run : TaskResult × Option UploadHistory × Store × List Event :=
  process_csv_file acceptAll ChannelCfg.works (some c1Upload) c1Rows ".csv" []

/-- C1: end-to-end, for the four-row source with an accept-every-batch store:
the empty-sku row is excluded from all counts (total = 3), a single batch of
size 3 is processed (`get_batch_size 3 = 3`, one progress event), the stored
record under key "A1" is the second occurrence (name "Widget v2"), 2 distinct
natural keys are stored, `successful = 2`, `failed = 1`, terminal status is
"failed", and a `bulk_upload_failed` webhook is enqueued with
`failed_records = 1`. -/
theorem end_to_end_small_csv :
    countValid c1Rows = 3 ∧
    get_batch_size (countValid c1Rows) = 3 ∧
    c1Run.1 = TaskResult.success 3 2 1 ∧
    countProgress c1Run.2.2.2 = 1 ∧
    List.lookup "A1" c1Run.2.2.1 =
      some { sku := "A1", name := "Widget v2", description := "", is_active := true } ∧
    c1Run.2.2.1.length = 2 ∧
    c1Run.2.1.map (fun r => r.status) = some "failed" ∧
    c1Run.2.1.map (fun r => r.total_records) = some 3 ∧
    c1Run.2.1.map (fun r => r.successful_records) = some 2 ∧
    c1Run.2.1.map (fun r => r.failed_records) = some 1 ∧
    c1Run.2.2.2.any (fun e =>
      match e with
      | Event.webhook t p => t == "bulk_upload_failed" && p.failed_records == some 1
      | _ => false) = true := by
  decide

/-- C2 counterexample: at `total_count = 100` the code returns
`round(100/100) = 1`, not the 200 the claim requires for `100 ≤ t < 1000`;
and at `total_count = 0` it returns 0, violating the claimed
`batch_size ≥ 1`. -/
theorem get_batch_size_claim_false :
    (get_batch_size 100 = 1 ∧ ¬get_batch_size 100 = 200) ∧
    (get_batch_size 0 = 0 ∧ ¬1 ≤ get_batch_size 0) := by
  decide

theorem get_batch_size_eq (t : Nat) :
    get_batch_size t =
      if t < 100 then t
      else if 100 < t ∧ t < 1000 then 200
      else pyRound t 100 := by
  unfold get_batch_size
  by_cases h1 : t < 100
  · simp [h1]
  · by_cases h2 : 100 < t ∧ t < 1000
    · have hb : (t > 100 && t < 1000) = true := by
        simp only [Bool.and_eq_true, decide_eq_true_eq]
        exact ⟨h2.1, h2.2⟩
      simp [h1, hb, h2]
    · have hb : ¬((t > 100 && t < 1000) = true) := by
        simp only [Bool.and_eq_true, decide_eq_true_eq]
        exact fun hc => h2 hc
      simp [h1, hb, h2]

theorem pyRound_ge_div (num den : Nat) : num / den ≤ pyRound num den := by
  unfold pyRound
  simp only []
  split_ifs <;> omega

/-- C2 (amended): batch size is `t` for `t < 100` (hence 0 at `t = 0`),
200 for `100 < t < 1000`, and `round(t/100)` (half to even) for `t = 100`
or `t ≥ 1000`; it is ≥ 1 whenever `t ≥ 1`. -/
theorem get_batch_size_spec (t : Nat) :
    (t < 100 → get_batch_size t = t) ∧
    (100 < t → t < 1000 → get_batch_size t = 200) ∧
    (t = 100 ∨ 1000 ≤ t → get_batch_size t = pyRound t 100) ∧
    (1 ≤ t → 1 ≤ get_batch_size t) := by
  rw [get_batch_size_eq]
  refine ⟨?_, ?_, ?_, ?_⟩
  · intro h
    simp [h]
  · intro h1 h2
    have hn : ¬t < 100 := by omega
    simp [hn, h1, h2]
  · rintro (rfl | h)
    · norm_num
    · have h1 : ¬t < 100 := by omega
      have h2 : ¬(100 < t ∧ t < 1000) := by omega
      simp [h1, h2]
  · intro h1
    split_ifs with ha hb
    · omega
    · omega
    · have hd : 1 ≤ t / 100 := by omega
      exact le_trans hd (pyRound_ge_div t 100)

/-- Witness for C2 at `t = 50`. -/
theorem get_batch_size_spec_witness : get_batch_size 50 = 50 :=
  (get_batch_size_spec 50).1 (by decide)

/-- C3: all-or-nothing upsert — on every batch handed to the executor
(non-empty, as the pipeline guarantees), the result is
`(batch.length, 0)` when the store accepts and `(0, batch.length)` when it
raises; in both cases `successful + failed = batch.length`. -/
theorem process_batch_all_or_nothing (accepts : List Product → Bool) (s : Store)
    (batch : List Product) (h : batch ≠ []) :
    (accepts batch = true →
        process_batch accepts s batch
          = Except.ok (storeUpsertBatch s batch, batch.length, 0)) ∧
    (accepts batch = false →
        process_batch accepts s batch = Except.ok (s, 0, batch.length)) ∧
    (∀ st succ fail, process_batch accepts s batch = Except.ok (st, succ, fail) →
        succ + fail = batch.length) := by
  rw [process_batch_nonempty accepts s batch h]
  refine ⟨fun ha => by rw [ha]; simp, fun ha => by rw [ha]; simp, ?_⟩
  intro st succ fail heq
  by_cases ha : accepts batch
  · rw [if_pos ha] at heq
    cases heq
    simp
  · rw [if_neg ha] at heq
    cases heq
    simp

/-- Witness for C3 on a concrete singleton batch. -/
theorem process_batch_all_or_nothing_witness :
    process_batch acceptAll []
        [{ sku := "A1", name := "Widget", description := "", is_active := true }]
      = Except.ok
          (storeUpsertBatch []
            [{ sku := "A1", name := "Widget", description := "", is_active := true }], 1, 0) :=
  (process_batch_all_or_nothing acceptAll []
      [{ sku := "A1", name := "Widget", description := "", is_active := true }]
      (by decide)).1 rfl

/-- C7 counterexample: with a channel layer present, emitting a progress
update with `total_records = 0` raises `ZeroDivisionError` (the division in
`round((successful_records/total_records)*100)` is unguarded) instead of
returning a 0 percentage. -/
theorem progress_zero_total_raises :
    send_progress_update ChannelCfg.works 7 "processing" 0 0
      = Except.error PyError.zeroDivision := rfl

/-- C7 (amended): every progress event actually emitted carries
`progress_percentage = round(successful/total × 100)` and can only exist for
`total > 0`; when `total = 0` and a channel layer is present the call raises
`ZeroDivisionError` rather than returning a value. -/
theorem progress_percentage_spec (cfg : ChannelCfg) (uid : Nat) (stat : String)
    (total succ : Nat) :
    (∀ p, send_progress_update cfg uid stat total succ = Except.ok (some p) →
        0 < total ∧ p.progress_percentage = pyRound (succ * 100) total) ∧
    (total = 0 → cfg ≠ ChannelCfg.absent →
        send_progress_update cfg uid stat total succ
          = Except.error PyError.zeroDivision) := by
  constructor
  · intro p hp
    cases cfg with
    | absent => simp [send_progress_update] at hp
    | works =>
      by_cases h0 : total = 0
      · simp [send_progress_update, h0] at hp
      · refine ⟨Nat.pos_of_ne_zero h0, ?_⟩
        simp [send_progress_update, h0] at hp
        rw [← hp]
    | raises =>
      by_cases h0 : total = 0
      · simp [send_progress_update, h0] at hp
      · simp [send_progress_update, h0] at hp
  · intro h0 hcfg
    cases cfg with
    | absent => exact absurd rfl hcfg
    | works => simp [send_progress_update, h0]
    | raises => simp [send_progress_update, h0]

/-- Witness for C7 on a concrete emitted event (2 of 3 records → 67%). -/
theorem progress_percentage_spec_witness :
    0 < 3 ∧
    ({ upload_id := 7, status := "processing", total_records := 3,
       successful_records := 2, progress_percentage := 67,
       message := "Processing 2/3 records" } : ProgressPayload).progress_percentage
      = pyRound (2 * 100) 3 :=
  (progress_percentage_spec ChannelCfg.works 7 "processing" 3 2).1 _ rfl

/-! ### Behaviour of one flush -/

theorem flushBatch_batch (accepts : List Product → Bool) (cfg : ChannelCfg) (uid : Nat)
    (stat : String) (tc : Nat) (st : StreamState) (h : st.batch ≠ []) :
    ((flushBatch accepts cfg uid stat tc st).1).batch = [] := by
  have hd : dedupBatch st.batch ≠ [] := dedupBatch_ne_nil _ h
  cases cfg <;> by_cases h0 : tc = 0 <;>
    by_cases ha : accepts (dedupBatch st.batch) <;>
      simp [flushBatch, process_batch_nonempty _ _ _ hd, send_progress_update, h0, ha]

theorem flushBatch_counters (accepts : List Product → Bool) (cfg : ChannelCfg) (uid : Nat)
    (stat : String) (tc : Nat) (st : StreamState) (h : st.batch ≠ []) :
    ((flushBatch accepts cfg uid stat tc st).1).total_processed
        = st.total_processed
          + (dedupBatch st.batch).length + (st.batch.length - (dedupBatch st.batch).length) ∧
    ((flushBatch accepts cfg uid stat tc st).1).total_successful
        = st.total_successful
          + (if accepts (dedupBatch st.batch) then (dedupBatch st.batch).length else 0) ∧
    ((flushBatch accepts cfg uid stat tc st).1).total_failed
        = st.total_failed
          + (if accepts (dedupBatch st.batch) then 0 else (dedupBatch st.batch).length)
          + (st.batch.length - (dedupBatch st.batch).length) := by
  have hd : dedupBatch st.batch ≠ [] := dedupBatch_ne_nil _ h
  cases cfg <;> by_cases h0 : tc = 0 <;>
    by_cases ha : accepts (dedupBatch st.batch) <;>
      simp [flushBatch, process_batch_nonempty _ _ _ hd, send_progress_update, h0, ha]

theorem flushBatch_store (accepts : List Product → Bool) (cfg : ChannelCfg) (uid : Nat)
    (stat : String) (tc : Nat) (st : StreamState) (h : st.batch ≠ []) :
    ((flushBatch accepts cfg uid stat tc st).1).store
      = (if accepts (dedupBatch st.batch)
          then storeUpsertBatch st.store (dedupBatch st.batch) else st.store) := by
  have hd : dedupBatch st.batch ≠ [] := dedupBatch_ne_nil _ h
  cases cfg <;> by_cases h0 : tc = 0 <;>
    by_cases ha : accepts (dedupBatch st.batch) <;>
      simp [flushBatch, process_batch_nonempty _ _ _ hd, send_progress_update, h0, ha]

theorem flushBatch_jobWrites (accepts : List Product → Bool) (cfg : ChannelCfg) (uid : Nat)
    (stat : String) (tc : Nat) (st : StreamState) (h : st.batch ≠ []) :
    countJobWrites ((flushBatch accepts cfg uid stat tc st).1).events
      = countJobWrites st.events := by
  have hd : dedupBatch st.batch ≠ [] := dedupBatch_ne_nil _ h
  cases cfg <;> by_cases h0 : tc = 0 <;>
    by_cases ha : accepts (dedupBatch st.batch) <;>
      simp [flushBatch, process_batch_nonempty _ _ _ hd, send_progress_update, h0, ha,
        countJobWrites, isJobWrite, List.filter_append]

theorem flushBatch_works (accepts : List Product → Bool) (uid : Nat)
    (stat : String) (tc : Nat) (st : StreamState) (h : st.batch ≠ []) (h0 : tc ≠ 0) :
    (flushBatch accepts ChannelCfg.works uid stat tc st).2 = none ∧
    countProgress ((flushBatch accepts ChannelCfg.works uid stat tc st).1).events
      = countProgress st.events + 1 := by
  have hd : dedupBatch st.batch ≠ [] := dedupBatch_ne_nil _ h
  by_cases ha : accepts (dedupBatch st.batch) <;>
    simp [flushBatch, process_batch_nonempty _ _ _ hd, send_progress_update, h0, ha,
      countProgress, isProgress, List.filter_append]

theorem flushBatch_raises (accepts : List Product → Bool) (uid : Nat)
    (stat : String) (tc : Nat) (st : StreamState) (h : st.batch ≠ []) :
    (flushBatch accepts ChannelCfg.raises uid stat tc st).2
      = some (if tc = 0 then PyError.zeroDivision else PyError.publishError) := by
  have hd : dedupBatch st.batch ≠ [] := dedupBatch_ne_nil _ h
  by_cases h0 : tc = 0 <;>
    by_cases ha : accepts (dedupBatch st.batch) <;>
      simp [flushBatch, process_batch_nonempty _ _ _ hd, send_progress_update, h0, ha]

theorem flushBatch_no_unbound (accepts : List Product → Bool) (cfg : ChannelCfg) (uid : Nat)
    (stat : String) (tc : Nat) (st : StreamState) (h : st.batch ≠ []) :
    (flushBatch accepts cfg uid stat tc st).2 ≠ some PyError.unboundLocal := by
  have hd : dedupBatch st.batch ≠ [] := dedupBatch_ne_nil _ h
  cases cfg <;> by_cases h0 : tc = 0 <;>
    by_cases ha : accepts (dedupBatch st.batch) <;>
      simp [flushBatch, process_batch_nonempty _ _ _ hd, send_progress_update, h0, ha]

/-! ### Behaviour of the whole processing loop -/

theorem flushBatch_inv (accepts : List Product → Bool) (cfg : ChannelCfg) (uid : Nat)
    (stat : String) (tc : Nat) (st : StreamState) (h : st.batch ≠ [])
    (hinv : st.total_processed = st.total_successful + st.total_failed) :
    ((flushBatch accepts cfg uid stat tc st).1).total_processed
      = ((flushBatch accepts cfg uid stat tc st).1).total_successful
        + ((flushBatch accepts cfg uid stat tc st).1).total_failed := by
  obtain ⟨h1, h2, h3⟩ := flushBatch_counters accepts cfg uid stat tc st h
  rw [h1, h2, h3]
  split_ifs with ha <;> omega

theorem streamLoop_inv (accepts : List Product → Bool) (cfg : ChannelCfg) (uid : Nat)
    (stat : String) (bs tc : Nat) :
    ∀ (rs : List Row) (st : StreamState),
      st.total_processed = st.total_successful + st.total_failed →
      ((streamLoop accepts cfg uid stat bs tc rs st).1).total_processed
        = ((streamLoop accepts cfg uid stat bs tc rs st).1).total_successful
          + ((streamLoop accepts cfg uid stat bs tc rs st).1).total_failed
  | [], st, h => by simpa [streamLoop] using h
  | r :: rs, st, h => by
    by_cases hv : rowValid r = true
    · simp only [streamLoop, hv, if_true]
      by_cases hb : ({ st with batch := st.batch ++ [rowToProduct r] } :
          StreamState).batch.length ≥ bs
      · rw [if_pos hb]
        have hne : ({ st with batch := st.batch ++ [rowToProduct r] } :
            StreamState).batch ≠ [] := by simp
        have hinv' :
            ((flushBatch accepts cfg uid stat tc
                { st with batch := st.batch ++ [rowToProduct r] }).1).total_processed
              = ((flushBatch accepts cfg uid stat tc
                  { st with batch := st.batch ++ [rowToProduct r] }).1).total_successful
                + ((flushBatch accepts cfg uid stat tc
                    { st with batch := st.batch ++ [rowToProduct r] }).1).total_failed :=
          flushBatch_inv accepts cfg uid stat tc _ hne (by simpa using h)
        cases hflush : flushBatch accepts cfg uid stat tc
            { st with batch := st.batch ++ [rowToProduct r] } with
        | mk st'' err =>
          rw [hflush] at hinv'
          cases err with
          | none =>
            simp only [hflush]
            exact streamLoop_inv accepts cfg uid stat bs tc rs st'' hinv'
          | some e =>
            simp only [hflush]
            exact hinv'
      · rw [if_neg hb]
        exact streamLoop_inv accepts cfg uid stat bs tc rs _ (by simpa using h)
    · simp only [streamLoop, hv, if_false]
      exact streamLoop_inv accepts cfg uid stat bs tc rs st h

theorem streamLoop_jobWrites (accepts : List Product → Bool) (cfg : ChannelCfg) (uid : Nat)
    (stat : String) (bs tc : Nat) :
    ∀ (rs : List Row) (st : StreamState),
      countJobWrites ((streamLoop accepts cfg uid stat bs tc rs st).1).events
        = countJobWrites st.events
  | [], st => by simp [streamLoop]
  | r :: rs, st => by
    by_cases hv : rowValid r = true
    · simp only [streamLoop, hv, if_true]
      by_cases hb : ({ st with batch := st.batch ++ [rowToProduct r] } :
          StreamState).batch.length ≥ bs
      · rw [if_pos hb]
        have hne : ({ st with batch := st.batch ++ [rowToProduct r] } :
            StreamState).batch ≠ [] := by simp
        have hw := flushBatch_jobWrites accepts cfg uid stat tc _ hne
        cases hflush : flushBatch accepts cfg uid stat tc
            { st with batch := st.batch ++ [rowToProduct r] } with
        | mk st'' err =>
          rw [hflush] at hw
          cases err with
          | none =>
            simp only [hflush]
            rw [streamLoop_jobWrites accepts cfg uid stat bs tc rs st'']
            exact hw
          | some e =>
            simp only [hflush]
            exact hw
      · rw [if_neg hb]
        exact streamLoop_jobWrites accepts cfg uid stat bs tc rs _
    · simp only [streamLoop, hv, if_false]
      exact streamLoop_jobWrites accepts cfg uid stat bs tc rs st

theorem streamLoop_no_unbound (accepts : List Product → Bool) (cfg : ChannelCfg) (uid : Nat)
    (stat : String) (bs tc : Nat) :
    ∀ (rs : List Row) (st : StreamState),
      (streamLoop accepts cfg uid stat bs tc rs st).2 ≠ some PyError.unboundLocal
  | [], st => by simp [streamLoop]
  | r :: rs, st => by
    by_cases hv : rowValid r = true
    · simp only [streamLoop, hv, if_true]
      by_cases hb : ({ st with batch := st.batch ++ [rowToProduct r] } :
          StreamState).batch.length ≥ bs
      · rw [if_pos hb]
        have hne : ({ st with batch := st.batch ++ [rowToProduct r] } :
            StreamState).batch ≠ [] := by simp
        have hk := flushBatch_no_unbound accepts cfg uid stat tc _ hne
        cases hflush : flushBatch accepts cfg uid stat tc
            { st with batch := st.batch ++ [rowToProduct r] } with
        | mk st'' err =>
          rw [hflush] at hk
          cases err with
          | none =>
            simp only [hflush]
            exact streamLoop_no_unbound accepts cfg uid stat bs tc rs st''
          | some e =>
            simp only [hflush]
            exact hk
      · rw [if_neg hb]
        exact streamLoop_no_unbound accepts cfg uid stat bs tc rs _
    · simp only [streamLoop, hv, if_false]
      exact streamLoop_no_unbound accepts cfg uid stat bs tc rs st

theorem countJobWrites_append (a b : List Event) :
    countJobWrites (a ++ b) = countJobWrites a + countJobWrites b := by
  simp [countJobWrites, List.filter_append]

theorem countProgress_append (a b : List Event) :
    countProgress (a ++ b) = countProgress a + countProgress b := by
  simp [countProgress, List.filter_append]

/-! ### Behaviour of the whole streaming pass -/

/-- The error a `StreamResult` carries, if any. -/
def streamErr : StreamResult → Option PyError
  | StreamResult.error e _ _ => some e
  | _ => none

theorem process_csv_streaming_ok (accepts : List Product → Bool) (cfg : ChannelCfg)
    (rows : List Row) (record : UploadHistory) (store : Store)
    (stats : Stats) (rec' : UploadHistory) (store' : Store) (evs : List Event)
    (h : process_csv_streaming accepts cfg rows record store
          = StreamResult.ok stats rec' store' evs) :
    stats.total = stats.successful + stats.failed ∧
    rec'.total_records = record.total_records ∧
    rec'.status = record.status ∧
    rec'.processed_records = stats.total ∧
    rec'.successful_records = stats.successful ∧
    rec'.failed_records = stats.failed ∧
    countJobWrites evs = 1 := by
  unfold process_csv_streaming at h
  set st0 : StreamState :=
    { batch := [], total_processed := 0, total_successful := 0, total_failed := 0
      batch_num := 0, store := store, events := [] } with hst0
  dsimp only at h
  have hinv0 : st0.total_processed = st0.total_successful + st0.total_failed := by
    simp [hst0]
  have hjw0 : countJobWrites st0.events = 0 := by
    simp [hst0, countJobWrites]
  cases hloop : streamLoop accepts cfg record.id record.status
      (get_batch_size (countValid rows)) (countValid rows) rows st0 with
  | mk st1 err1 =>
    rw [hloop] at h
    have hinv1 : st1.total_processed = st1.total_successful + st1.total_failed := by
      have := streamLoop_inv accepts cfg record.id record.status
        (get_batch_size (countValid rows)) (countValid rows) rows st0 hinv0
      rw [hloop] at this
      exact this
    have hjw1 : countJobWrites st1.events = 0 := by
      have := streamLoop_jobWrites accepts cfg record.id record.status
        (get_batch_size (countValid rows)) (countValid rows) rows st0
      rw [hloop] at this
      rw [this]
      exact hjw0
    cases err1 with
    | some e => simp at h
    | none =>
      dsimp only at h
      by_cases hbe : st1.batch.isEmpty
      · rw [if_pos hbe] at h
        dsimp only at h
        simp only [StreamResult.ok.injEq] at h
        obtain ⟨hstats, hrec, hstore, hevs⟩ := h
        subst hstats hrec hstore
        refine ⟨by simpa using hinv1, rfl, rfl, by simp [hinv1], by simp, by simp, ?_⟩
        rw [← hevs, countJobWrites_append, hjw1]
        rfl
      · rw [if_neg hbe] at h
        have hne : st1.batch ≠ [] := by
          intro hx
          rw [hx] at hbe
          exact hbe rfl
        have hinv2 := flushBatch_inv accepts cfg record.id "completed"
          (countValid rows) st1 hne hinv1
        have hjw2 := flushBatch_jobWrites accepts cfg record.id "completed"
          (countValid rows) st1 hne
        cases hflush : flushBatch accepts cfg record.id "completed"
            (countValid rows) st1 with
        | mk st2 err2 =>
          rw [hflush] at h hinv2 hjw2
          cases err2 with
          | some e => simp at h
          | none =>
            dsimp only at h
            simp only [StreamResult.ok.injEq] at h
            obtain ⟨hstats, hrec, hstore, hevs⟩ := h
            subst hstats hrec hstore
            refine ⟨by simpa using hinv2, rfl, rfl, by simp [hinv2], by simp, by simp, ?_⟩
            rw [← hevs, countJobWrites_append, hjw2, hjw1]
            rfl

theorem process_csv_streaming_no_unbound (accepts : List Product → Bool) (cfg : ChannelCfg)
    (rows : List Row) (record : UploadHistory) (store : Store) :
    streamErr (process_csv_streaming accepts cfg rows record store)
      ≠ some PyError.unboundLocal := by
  unfold process_csv_streaming
  dsimp only
  have hnl := streamLoop_no_unbound accepts cfg record.id record.status
    (get_batch_size (countValid rows)) (countValid rows) rows
    { batch := [], total_processed := 0, total_successful := 0, total_failed := 0,
      batch_num := 0, store := store, events := [] }
  cases hloop : streamLoop accepts cfg record.id record.status
      (get_batch_size (countValid rows)) (countValid rows) rows
      { batch := [], total_processed := 0, total_successful := 0, total_failed := 0,
        batch_num := 0, store := store, events := [] } with
  | mk st1 err1 =>
    rw [hloop] at hnl
    cases err1 with
    | some e =>
      intro hc
      simp only [streamErr, Option.some.injEq] at hc
      exact hnl (by simp [hc])
    | none =>
      dsimp only
      by_cases hbe : st1.batch.isEmpty
      · rw [if_pos hbe]
        simp [streamErr]
      · rw [if_neg hbe]
        have hne : st1.batch ≠ [] := by
          intro hx
          rw [hx] at hbe
          exact hbe rfl
        have hfl := flushBatch_no_unbound accepts cfg record.id "completed"
          (countValid rows) st1 hne
        cases hflush : flushBatch accepts cfg record.id "completed"
            (countValid rows) st1 with
        | mk st2 err2 =>
          rw [hflush] at hfl
          cases err2 with
          | some e =>
            intro hc
            simp only [streamErr, Option.some.injEq] at hc
            exact hfl (by simp [hc])
          | none =>
            simp [streamErr]

/-- C10: the upsert executor's result is undefined on the empty batch —
`process_batch []` raises `UnboundLocalError` instead of returning zero
counts — and the pipeline maintains the non-emptiness precondition: it never
flushes an empty batch (deduplication of a non-empty batch is non-empty, and
the streaming pass can never raise `UnboundLocalError`). -/
theorem empty_batch_precondition (accepts : List Product → Bool) (cfg : ChannelCfg)
    (s : Store) (rows : List Row) (record : UploadHistory) (store : Store) :
    process_batch accepts s [] = Except.error PyError.unboundLocal ∧
    (∀ b : List Product, b ≠ [] → dedupBatch b ≠ []) ∧
    streamErr (process_csv_streaming accepts cfg rows record store)
      ≠ some PyError.unboundLocal :=
  ⟨rfl, fun b hb => dedupBatch_ne_nil b hb,
   process_csv_streaming_no_unbound accepts cfg rows record store⟩

/-- Witness for C10 on concrete inputs. -/
theorem empty_batch_precondition_witness :
    process_batch acceptAll [] [] = Except.error PyError.unboundLocal ∧
    dedupBatch [{ sku := "A1", name := "W", description := "", is_active := true }] ≠ [] ∧
    streamErr (process_csv_streaming acceptAll ChannelCfg.works c1Rows c1Upload [])
      ≠ some PyError.unboundLocal :=
  ⟨(empty_batch_precondition acceptAll ChannelCfg.works [] c1Rows c1Upload []).1,
   (empty_batch_precondition acceptAll ChannelCfg.works [] c1Rows c1Upload []).2.1
     [{ sku := "A1", name := "W", description := "", is_active := true }] (by decide),
   (empty_batch_precondition acceptAll ChannelCfg.works [] c1Rows c1Upload []).2.2⟩

/-- C4: deduplication — for every batch and key, the deduplicated batch
retains exactly the last occurrence of that key (nothing when the key is
absent); the number of removed records equals `count(K) - 1` summed over the
distinct keys; and each flush adds every removed duplicate to the running
failed counter on top of the executor's failed count. -/
theorem dedup_last_wins (batch : List Product) (K : String)
    (accepts : List Product → Bool) (cfg : ChannelCfg) (uid : Nat) (stat : String)
    (tc : Nat) (st : StreamState) (h : st.batch ≠ []) :
    ((dedupBatch batch).filter (fun q => q.sku == K)
        = ((batch.filter (fun q => q.sku == K)).getLast?).toList) ∧
    (batch.length - (dedupBatch batch).length
        = ((skus (dedupBatch batch)).map (fun K2 => (skus batch).count K2 - 1)).sum) ∧
    (((flushBatch accepts cfg uid stat tc st).1).total_failed
        = st.total_failed
          + (if accepts (dedupBatch st.batch) then 0 else (dedupBatch st.batch).length)
          + (st.batch.length - (dedupBatch st.batch).length)) :=
  ⟨dedupBatch_filter batch K, dedupBatch_length_sum batch,
   (flushBatch_counters accepts cfg uid stat tc st h).2.2⟩

theorem countJobWrites_cons_write (r : UploadHistory) (l : List Event) :
    countJobWrites (Event.jobWrite r :: l) = countJobWrites l + 1 := by
  simp [countJobWrites, isJobWrite, List.filter_cons]

theorem countJobWrites_cons_webhook (t : String) (p : TerminalPayload) (l : List Event) :
    countJobWrites (Event.webhook t p :: l) = countJobWrites l := by
  simp [countJobWrites, isJobWrite, List.filter_cons]

/-- Everything the success path of `process_csv_file` guarantees: the
returned stats satisfy the counter law, the persisted row carries exactly
those stats, the job row is written exactly three times (initial status
write, end of streaming, finalization), and the terminal status is `failed`
precisely when any records failed. -/
theorem process_csv_file_success (accepts : List Product → Bool) (cfg : ChannelCfg)
    (rec0 : UploadHistory) (rows : List Row) (ext : String) (store : Store)
    (t s f : Nat) (rec : UploadHistory) (store2 : Store) (evs : List Event)
    (h : process_csv_file accepts cfg (some rec0) rows ext store
          = (TaskResult.success t s f, some rec, store2, evs)) :
    t = s + f ∧
    rec.total_records = t ∧ rec.successful_records = s ∧ rec.failed_records = f ∧
    rec.total_records = rec.successful_records + rec.failed_records ∧
    countJobWrites evs = 3 ∧
    (0 < f → rec.status = "failed") ∧
    (f = 0 → rec.status = "completed") := by
  unfold process_csv_file at h
  dsimp only at h
  by_cases hext : ext = ".csv"
  · rw [if_pos hext] at h
    cases hstream : process_csv_streaming accepts cfg rows
        { rec0 with status := "processing" } store with
    | error e store2' evs' =>
      rw [hstream] at h
      dsimp only at h
      simp at h
    | ok stats rec2 store2' evs' =>
      rw [hstream] at h
      dsimp only at h
      have hok := process_csv_streaming_ok accepts cfg rows
        { rec0 with status := "processing" } store stats rec2 store2' evs' hstream
      by_cases hf : stats.failed > 0
      · rw [if_pos hf] at h
        simp only [Prod.mk.injEq, TaskResult.success.injEq, Option.some.injEq] at h
        obtain ⟨⟨ht, hs, hff⟩, hrec, hst, hevs⟩ := h
        subst ht hs hff
        refine ⟨hok.1, ?_, ?_, ?_, ?_, ?_, ?_, ?_⟩
        · rw [← hrec]
        · rw [← hrec]
        · rw [← hrec]
        · rw [← hrec]
          exact hok.1.symm ▸ rfl
        · rw [← hevs]
          simp only [countJobWrites_cons_write, countJobWrites_append,
            countJobWrites_cons_webhook, hok.2.2.2.2.2.2]
          rfl
        · intro _
          rw [← hrec]
        · intro hzero
          omega
      · rw [if_neg hf] at h
        simp only [Prod.mk.injEq, TaskResult.success.injEq, Option.some.injEq] at h
        obtain ⟨⟨ht, hs, hff⟩, hrec, hst, hevs⟩ := h
        subst ht hs hff
        refine ⟨hok.1, ?_, ?_, ?_, ?_, ?_, ?_, ?_⟩
        · rw [← hrec]
        · rw [← hrec]
        · rw [← hrec]
        · rw [← hrec]
          exact hok.1.symm ▸ rfl
        · rw [← hevs]
          simp only [countJobWrites_cons_write, countJobWrites_append,
            countJobWrites_cons_webhook, hok.2.2.2.2.2.2]
          rfl
        · intro hpos
          omega
        · intro _
          rw [← hrec]
  · rw [if_neg hext] at h
    dsimp only at h
    simp at h

/-- C5: counter law — every job that reaches a terminal state through the
processing pass (the task returns a success dict) persists
`total_records = successful_records + failed_records`, the counters being
exactly the accumulated per-batch `successful + failed` totals (in-batch
duplicates counted as failed, by `flushBatch`). -/
theorem final_counters_law (accepts : List Product → Bool) (cfg : ChannelCfg)
    (rec0 : UploadHistory) (rows : List Row) (ext : String) (store : Store)
    (t s f : Nat) (rec : UploadHistory) (store2 : Store) (evs : List Event)
    (h : process_csv_file accepts cfg (some rec0) rows ext store
          = (TaskResult.success t s f, some rec, store2, evs)) :
    t = s + f ∧
    rec.total_records = t ∧ rec.successful_records = s ∧ rec.failed_records = f ∧
    rec.total_records = rec.successful_records + rec.failed_records :=
  have H := process_csv_file_success accepts cfg rec0 rows ext store t s f rec store2 evs h
  ⟨H.1, H.2.1, H.2.2.1, H.2.2.2.1, H.2.2.2.2.1⟩

/-- The concrete one-row run used by the witnesses below. -/
def c5Rows : List Row := [sampleRow "x1" "Widget"]

def c5Upload : UploadHistory :=
  { id := 3, file_name := "one.csv", status := "pending", total_records := 0,
    processed_records := 0, successful_records := 0, failed_records := 0,
    error_message := none }

def c5FinalRec : UploadHistory :=
  { id := 3, file_name := "one.csv", status := "completed", total_records := 1,
    processed_records := 1, successful_records := 1, failed_records := 0,
    error_message := none }

def c5Store : Store :=
  [("X1", { sku := "X1", name := "Widget", description := "", is_active := true })]

def c5Events : List Event :=
  [Event.jobWrite
     { id := 3, file_name := "one.csv", status := "processing", total_records := 0,
       processed_records := 0, successful_records := 0, failed_records := 0,
       error_message := none },
   Event.progress
     { upload_id := 3, status := "processing", total_records := 1,
       successful_records := 1, progress_percentage := 100,
       message := "Processing 1/1 records" },
   Event.jobWrite
     { id := 3, file_name := "one.csv", status := "processing", total_records := 0,
       processed_records := 1, successful_records := 1, failed_records := 0,
       error_message := none },
   Event.jobWrite c5FinalRec,
   Event.webhook "bulk_upload_complete"
     { upload_id := 3, file_name := "one.csv", total_records := some 1,
       successful_records := some 1, failed_records := some 0, error_message := none }]

/-- Witness for C5 on the one-row run. -/
theorem final_counters_law_witness :
    (1 : Nat) = 1 + 0 ∧
    c5FinalRec.total_records = 1 ∧ c5FinalRec.successful_records = 1 ∧
    c5FinalRec.failed_records = 0 ∧
    c5FinalRec.total_records = c5FinalRec.successful_records + c5FinalRec.failed_records :=
  final_counters_law acceptAll ChannelCfg.works c5Upload c5Rows ".csv" [] 1 1 0
    c5FinalRec c5Store c5Events (by decide)

/-- C9 (amended): the Coordinator reads the job row once at start, but the
per-batch writes are commented out in the source — on every run that reaches
the success path the job row is written exactly 3 times in total (initial
`processing` status write, the single write at the end of the streaming
pass, and the finalization write), independent of the number of batches. -/
theorem job_write_schedule_spec (accepts : List Product → Bool) (cfg : ChannelCfg)
    (rec0 : UploadHistory) (rows : List Row) (ext : String) (store : Store)
    (t s f : Nat) (rec : UploadHistory) (store2 : Store) (evs : List Event)
    (h : process_csv_file accepts cfg (some rec0) rows ext store
          = (TaskResult.success t s f, some rec, store2, evs)) :
    countJobWrites evs = 3 :=
  (process_csv_file_success accepts cfg rec0 rows ext store t s f rec store2 evs h).2.2.2.2.2.1

/-- Witness for C9 on the one-row run. -/
theorem job_write_schedule_spec_witness : countJobWrites c5Events = 3 :=
  job_write_schedule_spec acceptAll ChannelCfg.works c5Upload c5Rows ".csv" [] 1 1 0
    c5FinalRec c5Store c5Events (by decide)

/-- A 100-row source with pairwise-distinct SKUs ("A0" … "J9"). -/
def mkRow100 (i : Nat) : Row :=
  { sku := some (String.mk [Char.ofNat (65 + i / 10), Char.ofNat (48 + i % 10)]),
    name := some "N", desc := none, description := none }

def c9Rows : List Row := (List.range 100).map mkRow100

def c9Upload : UploadHistory :=
  { id := 9, file_name := "big.csv", status := "pending", total_records := 0,
    processed_records := 0, successful_records := 0, failed_records := 0,
    error_message := none }

def c9Events : List Event :=
  (process_csv_file acceptAll ChannelCfg.works (some c9Upload) c9Rows ".csv" []).2.2.2

set_option maxRecDepth 40000 in
/-- C9 counterexample: the 100-valid-row run has `get_batch_size 100 = 1`,
hence 100 batches (one progress event each), but only 3 job-row writes in
total — 2 after the initial status write, not the claimed
`n + 1 = 101`. -/
theorem job_write_schedule_counterexample :
    countProgress c9Events = 100 ∧ countJobWrites c9Events = 3 ∧
    ¬(countProgress c9Events + 1 ≤ countJobWrites c9Events - 1) := by
  decide

/-! ### Webhook dispatcher -/

theorem deliverFrom_attempts_le (respond : Nat → HttpOutcome) (retry_count : Nat) :
    ∀ (n attempt : Nat), retry_count - attempt = n → attempt ≤ retry_count →
      (deliverFrom respond retry_count attempt).attempts ≤ retry_count + 1 - attempt
  | 0, attempt, hn, hle => by
    have ha : attempt = retry_count := by omega
    unfold deliverFrom
    by_cases hs : outcomeSuccess (respond attempt) = true
    · simp [hs]
      omega
    · have hlt : ¬attempt < retry_count := by omega
      simp [hs, hlt]
      omega
  | n + 1, attempt, hn, hle => by
    unfold deliverFrom
    by_cases hs : outcomeSuccess (respond attempt) = true
    · simp [hs]
      omega
    · have hlt : attempt < retry_count := by omega
      have ih := deliverFrom_attempts_le respond retry_count n (attempt + 1)
        (by omega) (by omega)
      simp [hs, hlt]
      omega

theorem deliverFrom_first_success (respond : Nat → HttpOutcome) (retry_count attempt : Nat)
    (hs : outcomeSuccess (respond attempt) = true) :
    deliverFrom respond retry_count attempt
      = { attempts := 1, delays := [], delivered := true } := by
  unfold deliverFrom
  simp [hs]

theorem deliverFrom_all_fail (respond : Nat → HttpOutcome) (retry_count : Nat)
    (hfail : ∀ i, outcomeSuccess (respond i) = false) :
    ∀ (n attempt : Nat), retry_count - attempt = n → attempt ≤ retry_count →
      deliverFrom respond retry_count attempt
        = { attempts := retry_count + 1 - attempt,
            delays := (List.range' attempt (retry_count - attempt)).map (fun a => 2 ^ a),
            delivered := false }
  | 0, attempt, hn, hle => by
    have hlt : ¬attempt < retry_count := by omega
    unfold deliverFrom
    simp [hfail attempt, hlt]
    rw [hn]
    refine ⟨by omega, rfl⟩
  | n + 1, attempt, hn, hle => by
    have hlt : attempt < retry_count := by omega
    have ih := deliverFrom_all_fail respond retry_count hfail n (attempt + 1)
      (by omega) (by omega)
    unfold deliverFrom
    simp [hfail attempt, hlt, ih]
    refine ⟨by omega, ?_⟩
    have hr : retry_count - attempt = (retry_count - (attempt + 1)) + 1 := by omega
    rw [hr, List.range'_succ]
    rfl

theorem length_filter_map_aux (g : WebhookEP → AttemptResult) (p : AttemptResult → Bool) :
    ∀ l : List WebhookEP,
      ((l.map g).filter p).length = (l.filter (fun ep => p (g ep))).length
  | [] => rfl
  | a :: l => by
    by_cases hp : p (g a) = true <;>
      simp [List.filter_cons, hp, length_filter_map_aux g p l]


/-! ### Progress transport: absence versus working layer -/

/-- Drop the progress publications from a trace. -/
def stripProgress (evs : List Event) : List Event := evs.filter (fun e => !isProgress e)

def stripState (st : StreamState) : StreamState :=
  { st with events := stripProgress st.events }

def stripResult : StreamResult → StreamResult
  | StreamResult.ok stats r s evs => StreamResult.ok stats r s (stripProgress evs)
  | StreamResult.error e s evs => StreamResult.error e s (stripProgress evs)

@[simp]
theorem stripProgress_nil : stripProgress [] = [] := rfl

theorem stripProgress_append (a b : List Event) :
    stripProgress (a ++ b) = stripProgress a ++ stripProgress b := by
  simp [stripProgress, List.filter_append]

theorem stripProgress_cons_write (r : UploadHistory) (l : List Event) :
    stripProgress (Event.jobWrite r :: l) = Event.jobWrite r :: stripProgress l := by
  simp [stripProgress, List.filter_cons, isProgress]

theorem stripProgress_cons_webhook (t : String) (p : TerminalPayload) (l : List Event) :
    stripProgress (Event.webhook t p :: l) = Event.webhook t p :: stripProgress l := by
  simp [stripProgress, List.filter_cons, isProgress]

theorem stripProgress_cons_progress (p : ProgressPayload) (l : List Event) :
    stripProgress (Event.progress p :: l) = stripProgress l := by
  simp [stripProgress, List.filter_cons, isProgress]

theorem flushBatch_sim (accepts : List Product → Bool) (uid : Nat) (stat : String)
    (tc : Nat) (st : StreamState) (h0 : tc ≠ 0) :
    flushBatch accepts ChannelCfg.absent uid stat tc (stripState st)
      = (stripState (flushBatch accepts ChannelCfg.works uid stat tc st).1,
         (flushBatch accepts ChannelCfg.works uid stat tc st).2) := by
  by_cases hb : st.batch = []
  · have hsb : (stripState st).batch = [] := hb
    simp [flushBatch, process_batch, hsb, hb, dedupBatch]
  · have hd : dedupBatch st.batch ≠ [] := dedupBatch_ne_nil _ hb
    unfold flushBatch
    dsimp only [stripState]
    rw [process_batch_nonempty accepts st.store (dedupBatch st.batch) hd]
    by_cases ha : accepts (dedupBatch st.batch) = true
    · rw [if_pos ha]
      dsimp only
      simp only [send_progress_update, if_neg h0]
      simp [stripProgress_append, stripProgress_cons_progress]
    · rw [if_neg ha]
      dsimp only
      simp only [send_progress_update, if_neg h0]
      simp [stripProgress_append, stripProgress_cons_progress]

theorem streamLoop_all_invalid (accepts : List Product → Bool) (cfg : ChannelCfg)
    (uid : Nat) (stat : String) (bs tc : Nat) :
    ∀ (rs : List Row) (st : StreamState), (∀ r ∈ rs, rowValid r = false) →
      streamLoop accepts cfg uid stat bs tc rs st = (st, none)
  | [], _, _ => rfl
  | r :: rs, st, h => by
    have hv : ¬(rowValid r = true) := by
      rw [h r (List.mem_cons_self r rs)]
      simp
    simp only [streamLoop]
    rw [if_neg hv]
    exact streamLoop_all_invalid accepts cfg uid stat bs tc rs st
      (fun x hx => h x (List.mem_cons_of_mem r hx))

theorem streamLoop_sim (accepts : List Product → Bool) (uid : Nat) (stat : String)
    (bs tc : Nat) (h0 : tc ≠ 0) :
    ∀ (rs : List Row) (st : StreamState),
      streamLoop accepts ChannelCfg.absent uid stat bs tc rs (stripState st)
        = (stripState (streamLoop accepts ChannelCfg.works uid stat bs tc rs st).1,
           (streamLoop accepts ChannelCfg.works uid stat bs tc rs st).2)
  | [], st => by simp [streamLoop]
  | r :: rs, st => by
    by_cases hv : rowValid r = true
    · simp only [streamLoop, hv, if_true]
      dsimp only [stripState]
      by_cases hb : (st.batch ++ [rowToProduct r]).length ≥ bs
      · rw [if_pos hb, if_pos hb]
        have key := flushBatch_sim accepts uid stat tc
          { st with batch := st.batch ++ [rowToProduct r] } h0
        dsimp only [stripState] at key
        rw [key]
        cases hflush : flushBatch accepts ChannelCfg.works uid stat tc
            { st with batch := st.batch ++ [rowToProduct r] } with
        | mk stw err =>
          cases err with
          | some e => rfl
          | none =>
            dsimp only
            have ih := streamLoop_sim accepts uid stat bs tc h0 rs stw
            exact ih
      · rw [if_neg hb, if_neg hb]
        have ih := streamLoop_sim accepts uid stat bs tc h0 rs
          { st with batch := st.batch ++ [rowToProduct r] }
        dsimp only [stripState] at ih
        exact ih
    · simp only [streamLoop]
      rw [if_neg hv, if_neg hv]
      exact streamLoop_sim accepts uid stat bs tc h0 rs st

theorem countValid_zero_all_invalid (rows : List Row) (hc : countValid rows = 0) :
    ∀ r ∈ rows, rowValid r = false := by
  have hnil : rows.filter rowValid = [] := by
    unfold countValid at hc
    exact List.length_eq_zero.mp hc
  intro r hr
  cases hx : rowValid r with
  | false => rfl
  | true =>
    have : r ∈ rows.filter rowValid := List.mem_filter.mpr ⟨hr, hx⟩
    rw [hnil] at this
    exact absurd this (List.not_mem_nil r)

theorem process_csv_streaming_absent (accepts : List Product → Bool) (rows : List Row)
    (record : UploadHistory) (store : Store) :
    process_csv_streaming accepts ChannelCfg.absent rows record store
      = stripResult (process_csv_streaming accepts ChannelCfg.works rows record store) := by
  by_cases hc : countValid rows = 0
  · have hall := countValid_zero_all_invalid rows hc
    unfold process_csv_streaming
    dsimp only
    rw [streamLoop_all_invalid accepts ChannelCfg.absent record.id record.status
        (get_batch_size (countValid rows)) (countValid rows) rows _ hall,
      streamLoop_all_invalid accepts ChannelCfg.works record.id record.status
        (get_batch_size (countValid rows)) (countValid rows) rows _ hall]
    dsimp only
    simp [stripResult, stripProgress, List.filter_cons, isProgress]
  · unfold process_csv_streaming
    dsimp only
    have hsim := streamLoop_sim accepts record.id record.status
      (get_batch_size (countValid rows)) (countValid rows) hc rows
      { batch := [], total_processed := 0, total_successful := 0, total_failed := 0,
        batch_num := 0, store := store, events := [] }
    have hstrip0 : stripState
        { batch := [], total_processed := 0, total_successful := 0, total_failed := 0,
          batch_num := 0, store := store, events := [] }
        = { batch := [], total_processed := 0, total_successful := 0, total_failed := 0,
            batch_num := 0, store := store, events := [] } := rfl
    rw [hstrip0] at hsim
    rw [hsim]
    cases hloop : streamLoop accepts ChannelCfg.works record.id record.status
        (get_batch_size (countValid rows)) (countValid rows) rows
        { batch := [], total_processed := 0, total_successful := 0, total_failed := 0,
          batch_num := 0, store := store, events := [] } with
    | mk st1 err1 =>
      cases err1 with
      | some e => rfl
      | none =>
        dsimp only
        by_cases hbe : st1.batch.isEmpty = true
        · rw [if_pos hbe, if_pos (show (stripState st1).batch.isEmpty = true from hbe)]
          dsimp only [stripState, stripResult]
          simp [stripProgress_append, stripProgress_cons_write]
        · rw [if_neg hbe, if_neg (show ¬(stripState st1).batch.isEmpty = true from hbe)]
          have key := flushBatch_sim accepts record.id "completed" (countValid rows) st1 hc
          rw [key]
          cases hflush : flushBatch accepts ChannelCfg.works record.id "completed"
              (countValid rows) st1 with
          | mk st2 err2 =>
            cases err2 with
            | some e => rfl
            | none =>
              dsimp only [stripState, stripResult]
              simp [stripProgress_append, stripProgress_cons_write]

theorem streamLoop_raises_growth (accepts : List Product → Bool) (uid : Nat)
    (stat : String) (bs tc : Nat) :
    ∀ (rs : List Row) (st : StreamState),
      (streamLoop accepts ChannelCfg.raises uid stat bs tc rs st).2 = none →
      ((streamLoop accepts ChannelCfg.raises uid stat bs tc rs st).1).batch.length
        = st.batch.length + countValid rs
  | [], st, _ => by simp [streamLoop, countValid]
  | r :: rs, st, h => by
    by_cases hv : rowValid r = true
    · have hcv : countValid (r :: rs) = countValid rs + 1 := by
        simp [countValid, List.filter_cons, hv]
      simp only [streamLoop, hv, if_true] at h ⊢
      by_cases hb : ({ st with batch := st.batch ++ [rowToProduct r] } :
          StreamState).batch.length ≥ bs
      · rw [if_pos hb] at h ⊢
        have hne : ({ st with batch := st.batch ++ [rowToProduct r] } :
            StreamState).batch ≠ [] := by simp
        have hr := flushBatch_raises accepts uid stat tc _ hne
        cases hflush : flushBatch accepts ChannelCfg.raises uid stat tc
            { st with batch := st.batch ++ [rowToProduct r] } with
        | mk stw err =>
          rw [hflush] at hr h
          simp at hr
          rw [hr] at h
          simp at h
      · rw [if_neg hb] at h ⊢
        have ih := streamLoop_raises_growth accepts uid stat bs tc rs
          { st with batch := st.batch ++ [rowToProduct r] } h
        rw [ih, hcv]
        simp
        omega
    · have hcv : countValid (r :: rs) = countValid rs := by
        simp [countValid, List.filter_cons, hv]
      simp only [streamLoop] at h ⊢
      rw [if_neg hv] at h ⊢
      rw [streamLoop_raises_growth accepts uid stat bs tc rs st h, hcv]

theorem process_csv_streaming_raises (accepts : List Product → Bool) (rows : List Row)
    (record : UploadHistory) (store : Store) (hc : countValid rows ≠ 0) :
    ∃ e store2 evs, process_csv_streaming accepts ChannelCfg.raises rows record store
      = StreamResult.error e store2 evs := by
  unfold process_csv_streaming
  dsimp only
  cases hloop : streamLoop accepts ChannelCfg.raises record.id record.status
      (get_batch_size (countValid rows)) (countValid rows) rows
      { batch := [], total_processed := 0, total_successful := 0, total_failed := 0,
        batch_num := 0, store := store, events := [] } with
  | mk st1 err1 =>
    cases err1 with
    | some e => exact ⟨e, st1.store, st1.events, rfl⟩
    | none =>
      have hg := streamLoop_raises_growth accepts record.id record.status
        (get_batch_size (countValid rows)) (countValid rows) rows
        { batch := [], total_processed := 0, total_successful := 0, total_failed := 0,
          batch_num := 0, store := store, events := [] } (by rw [hloop])
      rw [hloop] at hg
      dsimp only at hg
      have hneq : st1.batch ≠ [] := by
        intro hx
        rw [hx] at hg
        simp at hg
        exact hc hg.symm
      have hne : ¬(st1.batch.isEmpty = true) := by
        intro hx
        cases hbx : st1.batch with
        | nil => exact hneq hbx
        | cons a l =>
          rw [hbx] at hx
          simp at hx
      dsimp only
      rw [if_neg hne]
      have hr := flushBatch_raises accepts record.id "completed" (countValid rows) st1 hneq
      cases hflush : flushBatch accepts ChannelCfg.raises record.id "completed"
          (countValid rows) st1 with
      | mk st2 err2 =>
        rw [hflush] at hr
        simp at hr
        rw [hr]
        exact ⟨_, st2.store, st2.events, rfl⟩

/-- `process_csv_file` on a `.csv` extension and an existing row, expressed
through the streaming result (the `DoesNotExist` and unsupported-extension
branches eliminated). -/
theorem process_csv_file_csv_eq (accepts : List Product → Bool) (cfg : ChannelCfg)
    (rec0 : UploadHistory) (rows : List Row) (store : Store) :
    process_csv_file accepts cfg (some rec0) rows ".csv" store
      = (match process_csv_streaming accepts cfg rows
            { rec0 with status := "processing" } store with
         | StreamResult.ok stats rec2 store2 evs =>
           if stats.failed > 0 then
             (TaskResult.success stats.total stats.successful stats.failed,
              some { rec2 with
                total_records := stats.total
                successful_records := stats.successful
                failed_records := stats.failed
                status := "failed"
                error_message := some (failureMessage stats.failed stats.total) },
              store2,
              Event.jobWrite { rec0 with status := "processing" } :: evs
                ++ [Event.jobWrite { rec2 with
                      total_records := stats.total
                      successful_records := stats.successful
                      failed_records := stats.failed
                      status := "failed"
                      error_message := some (failureMessage stats.failed stats.total) },
                    Event.webhook "bulk_upload_failed"
                      { upload_id := rec2.id, file_name := rec2.file_name
                        total_records := some stats.total
                        successful_records := some stats.successful
                        failed_records := some stats.failed
                        error_message := some (failureMessage stats.failed stats.total) }])
           else
             (TaskResult.success stats.total stats.successful stats.failed,
              some { rec2 with
                total_records := stats.total
                successful_records := stats.successful
                failed_records := stats.failed
                status := "completed" },
              store2,
              Event.jobWrite { rec0 with status := "processing" } :: evs
                ++ [Event.jobWrite { rec2 with
                      total_records := stats.total
                      successful_records := stats.successful
                      failed_records := stats.failed
                      status := "completed" },
                    Event.webhook "bulk_upload_complete"
                      { upload_id := rec2.id, file_name := rec2.file_name
                        total_records := some stats.total
                        successful_records := some stats.successful
                        failed_records := some stats.failed
                        error_message := none }])
         | StreamResult.error e store2 evs =>
           (TaskResult.error (pyErrMsg e),
            some { rec0 with status := "failed", error_message := some (pyErrMsg e) },
            store2,
            Event.jobWrite { rec0 with status := "processing" } :: evs
              ++ [Event.jobWrite { rec0 with
                    status := "failed", error_message := some (pyErrMsg e) },
                  Event.webhook "bulk_upload_failed"
                    { upload_id := rec0.id, file_name := rec0.file_name
                      total_records := none, successful_records := none
                      failed_records := none
                      error_message := some (pyErrMsg e) }])) := by
  unfold process_csv_file
  dsimp only
  rw [if_pos (rfl : (".csv" : String) = ".csv")]

theorem process_csv_file_absent (accepts : List Product → Bool) (rec0 : UploadHistory)
    (rows : List Row) (store : Store) :
    process_csv_file accepts ChannelCfg.absent (some rec0) rows ".csv" store
      = ((process_csv_file accepts ChannelCfg.works (some rec0) rows ".csv" store).1,
         (process_csv_file accepts ChannelCfg.works (some rec0) rows ".csv" store).2.1,
         (process_csv_file accepts ChannelCfg.works (some rec0) rows ".csv" store).2.2.1,
         stripProgress
           (process_csv_file accepts ChannelCfg.works (some rec0) rows ".csv" store).2.2.2) := by
  rw [process_csv_file_csv_eq, process_csv_file_csv_eq]
  rw [process_csv_streaming_absent accepts rows { rec0 with status := "processing" } store]
  cases hstream : process_csv_streaming accepts ChannelCfg.works rows
      { rec0 with status := "processing" } store with
  | ok stats rec2 s2 evs2 =>
    dsimp only [stripResult]
    by_cases hf : stats.failed > 0
    · rw [if_pos hf, if_pos hf]
      dsimp only
      simp [stripProgress_cons_write, stripProgress_append, stripProgress_cons_webhook]
    · rw [if_neg hf, if_neg hf]
      dsimp only
      simp [stripProgress_cons_write, stripProgress_append, stripProgress_cons_webhook]
  | error e s2 evs2 =>
    dsimp only [stripResult]
    simp [stripProgress_cons_write, stripProgress_append, stripProgress_cons_webhook]

theorem process_csv_file_raises (accepts : List Product → Bool) (rec0 : UploadHistory)
    (rows : List Row) (store : Store) (h1 : 1 ≤ countValid rows) :
    Option.map (fun r => r.status)
      (process_csv_file accepts ChannelCfg.raises (some rec0) rows ".csv" store).2.1
      = some "failed" := by
  obtain ⟨e, s2, evs, hE⟩ := process_csv_streaming_raises accepts rows
    { rec0 with status := "processing" } store (by omega)
  unfold process_csv_file
  dsimp only
  rw [if_pos (rfl : (".csv" : String) = ".csv"), hE]
  rfl

/-- C8 (amended): absence of the channel layer is absorbed — a run without a
channel layer produces exactly the outcome of a run with a working transport,
minus the progress publications (same task result, same persisted row, same
store).  But an error raised by the publish call itself is *not* absorbed: it
escalates to the top-level handler, which marks the job failed — so a raising
transport changes the terminal outcome of any job with at least one valid
record. -/
theorem publish_absorption_spec (accepts : List Product → Bool) (rec0 : UploadHistory)
    (rows : List Row) (store : Store) :
    (process_csv_file accepts ChannelCfg.absent (some rec0) rows ".csv" store
        = ((process_csv_file accepts ChannelCfg.works (some rec0) rows ".csv" store).1,
           (process_csv_file accepts ChannelCfg.works (some rec0) rows ".csv" store).2.1,
           (process_csv_file accepts ChannelCfg.works (some rec0) rows ".csv" store).2.2.1,
           stripProgress
             (process_csv_file accepts ChannelCfg.works
               (some rec0) rows ".csv" store).2.2.2)) ∧
    (1 ≤ countValid rows →
        Option.map (fun r => r.status)
          (process_csv_file accepts ChannelCfg.raises (some rec0) rows ".csv" store).2.1
          = some "failed") :=
  ⟨process_csv_file_absent accepts rec0 rows store,
   fun h1 => process_csv_file_raises accepts rec0 rows store h1⟩

/-- C8 counterexample: on a one-valid-row source with an accept-all store, a
working transport finishes the job `completed`, while a publish call that
raises drives the very same job to terminal status `failed` — the publish
failure escalated and changed the terminal outcome. -/
theorem publish_error_changes_outcome :
    Option.map (fun r => r.status)
      (process_csv_file acceptAll ChannelCfg.works (some c5Upload) c5Rows ".csv" []).2.1
      = some "completed" ∧
    Option.map (fun r => r.status)
      (process_csv_file acceptAll ChannelCfg.raises (some c5Upload) c5Rows ".csv" []).2.1
      = some "failed" := by
  decide

/-- Witness for C8's raising part on the one-valid-row source. -/
theorem publish_absorption_spec_witness :
    Option.map (fun r => r.status)
      (process_csv_file acceptAll ChannelCfg.raises (some c1Upload) c1Rows ".csv" []).2.1
      = some "failed" :=
  (publish_absorption_spec acceptAll c1Upload c1Rows []).2 (by decide)

/-- A concrete three-record batch with a duplicated key. -/
def c4Batch : List Product :=
  [{ sku := "A1", name := "Widget", description := "", is_active := true },
   { sku := "A1", name := "Widget v2", description := "", is_active := true },
   { sku := "B2", name := "Gadget", description := "", is_active := true }]

def c4State : StreamState :=
  { batch := c4Batch, total_processed := 0, total_successful := 0, total_failed := 0,
    batch_num := 0, store := [], events := [] }

/-- Witness for C4 on the concrete duplicated batch. -/
theorem dedup_last_wins_witness :
    ((dedupBatch c4Batch).filter (fun q => q.sku == "A1")
        = ((c4Batch.filter (fun q => q.sku == "A1")).getLast?).toList) ∧
    (c4Batch.length - (dedupBatch c4Batch).length
        = ((skus (dedupBatch c4Batch)).map
            (fun K2 => (skus c4Batch).count K2 - 1)).sum) ∧
    (((flushBatch acceptAll ChannelCfg.works 7 "processing" 3 c4State).1).total_failed
        = c4State.total_failed
          + (if acceptAll (dedupBatch c4State.batch) then 0
             else (dedupBatch c4State.batch).length)
          + (c4State.batch.length - (dedupBatch c4State.batch).length)) :=
  dedup_last_wins c4Batch "A1" acceptAll ChannelCfg.works 7 "processing" 3 c4State
    (by decide)

/-- C6: webhook retry — for every active endpoint subscribed to the
dispatched event type: at most `retry_count + 1` attempts are made; a 2xx on
the first attempt means exactly 1 attempt, no sleeps, endpoint counted as
triggered; an endpoint whose every attempt fails (non-2xx, timeout or
transport error) makes exactly `retry_count + 1` attempts with sleeps of
`2^attempt` seconds (zero-based: 1s, 2s, …) between consecutive attempts and
is counted as failed; the dispatcher's `triggered`/`failed` totals count the
delivered/exhausted endpoints; with `retry_count = 2` and all attempts
failing this gives exactly 3 attempts and delays `[1, 2]`. -/
theorem webhook_retry_spec (endpoints : List WebhookEP) (event_type : String)
    (respond : Nat → Nat → HttpOutcome) :
    (∀ ep, ep ∈ matchingEndpoints endpoints event_type →
        (webhookAttempts respond ep).attempts ≤ ep.retry_count + 1) ∧
    (∀ ep, ep ∈ matchingEndpoints endpoints event_type →
        outcomeSuccess (respond ep.id 0) = true →
          webhookAttempts respond ep
            = { attempts := 1, delays := [], delivered := true }) ∧
    (∀ ep, ep ∈ matchingEndpoints endpoints event_type →
        (∀ i, outcomeSuccess (respond ep.id i) = false) →
          webhookAttempts respond ep
            = { attempts := ep.retry_count + 1,
                delays := (List.range' 0 ep.retry_count).map (fun a => 2 ^ a),
                delivered := false }) ∧
    ((trigger_webhook endpoints event_type respond).triggered
        = ((matchingEndpoints endpoints event_type).filter
            (fun ep => (webhookAttempts respond ep).delivered)).length) ∧
    ((trigger_webhook endpoints event_type respond).failed
        = ((matchingEndpoints endpoints event_type).filter
            (fun ep => !(webhookAttempts respond ep).delivered)).length) ∧
    (∀ ep : WebhookEP, ep.retry_count = 2 →
        (∀ i, outcomeSuccess (respond ep.id i) = false) →
          webhookAttempts respond ep
            = { attempts := 3, delays := [1, 2], delivered := false }) := by
  refine ⟨?_, ?_, ?_, ?_, ?_, ?_⟩
  · intro ep _
    have := deliverFrom_attempts_le (respond ep.id) ep.retry_count ep.retry_count 0
      (by omega) (by omega)
    simpa [webhookAttempts] using this
  · intro ep _ hs
    simpa [webhookAttempts] using
      deliverFrom_first_success (respond ep.id) ep.retry_count 0 hs
  · intro ep _ hfail
    have := deliverFrom_all_fail (respond ep.id) ep.retry_count hfail ep.retry_count 0
      (by omega) (by omega)
    simpa [webhookAttempts] using this
  · unfold trigger_webhook
    dsimp only
    rw [length_filter_map_aux]
  · unfold trigger_webhook
    dsimp only
    rw [length_filter_map_aux]
  · intro ep hrc hfail
    have := deliverFrom_all_fail (respond ep.id) ep.retry_count hfail ep.retry_count 0
      (by omega) (by omega)
    rw [webhookAttempts, this, hrc]
    rfl

/-- A concrete endpoint with `retry_count = 2` and an HTTP client that
always answers 500. -/
def ep500 : WebhookEP :=
  { id := 1, url := "http://example.com/hook", event_type := "bulk_upload_failed",
    is_active := true, retry_count := 2 }

def respond500 : Nat → Nat → HttpOutcome := fun _ _ => HttpOutcome.response 500

/-- Witness for C6: the concrete retry scenario. -/
theorem webhook_retry_spec_witness :
    webhookAttempts respond500 ep500
      = { attempts := 3, delays := [1, 2], delivered := false } :=
  (webhook_retry_spec [ep500] "bulk_upload_failed" respond500).2.2.2.2.2 ep500 rfl
    (fun _ => rfl)
